import Mathlib

/-!
Verification of the concurrent batch overlay pipeline
(`youtube/processing/thumbnail_adder.py` and
`youtube/processing/watermark_adder.py`).

The Python modules are shallowly embedded: the file system is a list of
existing paths, `moviepy` clip handles are tracked by open/close flags,
durations are rationals, and the points where the external compositing
library may raise are explicit boolean fields of an environment record.
-/

namespace YouTube

/-- The file system visible to `os.path.exists`: the list of paths that exist. -/
abbrev FS := List String

/-- Embeds `os.path.exists`. -/
def pathExists (fs : FS) (p : String) : Bool := fs.contains p

/-- Split a character list at every occurrence of `c` (the semantics of
Python's `str.split(c)` and of `String.splitOn` for a one-character
separator). -/
def splitOnChar (c : Char) : List Char → List (List Char)
  | [] => [[]]
  | x :: xs =>
    let r := splitOnChar c xs
    if x = c then [] :: r
    else
      match r with
      | [] => [[x]]
      | y :: ys => (x :: y) :: ys

/-- Join character lists with the separator `c` between them. -/
def intercalateChar (c : Char) : List (List Char) → List Char
  | [] => []
  | [x] => x
  | x :: xs => x ++ c :: intercalateChar c xs

/-- Embeds `os.path.basename`: the component after the final `/`. -/
def basename (p : String) : String :=
  String.mk ((splitOnChar '/' p.toList).getLastD p.toList)

/-- The root part (`[0]` component) of `os.path.splitext` on a name holding no
path separator: everything before the last dot, unless every character before
that dot is itself a dot (then the whole name is the root). -/
def splitext_root (name : String) : String :=
  let parts := splitOnChar '.' name.toList
  if parts.length ≤ 1 then name
  else if parts.dropLast.all (fun s => s = []) then name
  else String.mk (intercalateChar '.' parts.dropLast)

/-- Embeds `os.path.join dir p` for POSIX paths as used by the scripts: an absolute
second component wins, an empty directory contributes nothing, and a `/` is
inserted unless the directory already ends with one. -/
def joinPath (dir p : String) : String :=
  if p.toList.headD ' ' = '/' then p
  else if dir = "" then p
  else if dir.toList.getLastD ' ' = '/' then dir ++ p
  else dir ++ "/" ++ p

namespace thumbnail_adder

/-- Constant `THUMBNAIL_DURATION = 0.1` (seconds to show the thumbnail at the end). -/
def THUMBNAIL_DURATION : ℚ := 1 / 10

/-- Constant `THUMBNAIL_FADE_DURATION = 0.1` (fade in/out duration). -/
def THUMBNAIL_FADE_DURATION : ℚ := 1 / 10

/-- Constant `MAX_WORKERS = min(multiprocessing.cpu_count(), 4)`, parametrised by the
machine's CPU count. -/
def MAX_WORKERS (cpu_count : Nat) : Nat := min cpu_count 4

/-- The naming patterns tried by `find_matching_thumbnail` for a video whose
base name (extension stripped) is `video_name`, in source order. -/
def patterns (video_name : String) : List String :=
  [video_name ++ "_thumb.png",
   video_name ++ "_thumbnail.png",
   video_name ++ ".png",
   "thumb_" ++ video_name ++ ".png"]

/-- Embeds `find_matching_thumbnail(video_file, thumbnail_patterns)`: derives the
video's base name, then iterates `for pattern in patterns: for thumb_dir in
thumbnail_patterns:` returning the first joined path that exists, else `None`.
(The parameter `thumbnail_patterns` is, as in the source, the list of candidate
directories.) -/
def find_matching_thumbnail (fs : FS) (video_file : String)
    (thumbnail_patterns : List String) : Option String :=
  let video_name := splitext_root (basename video_file)
  (patterns video_name).findSome? fun pattern =>
    thumbnail_patterns.findSome? fun thumb_dir =>
      let thumb_path := joinPath thumb_dir pattern
      if pathExists fs thumb_path then some thumb_path else none

/-- Modelled from the spec: the resolver the spec describes, with the loop
nesting flipped — "order of directories takes precedence over order of
patterns (all patterns tried in the first directory before moving to the
second)". Used only to compare against `find_matching_thumbnail`. -/
def find_matching_thumbnail_dir_major (fs : FS) (video_file : String)
    (thumbnail_patterns : List String) : Option String :=
  let video_name := splitext_root (basename video_file)
  thumbnail_patterns.findSome? fun thumb_dir =>
    (patterns video_name).findSome? fun pattern =>
      let thumb_path := joinPath thumb_dir pattern
      if pathExists fs thumb_path then some thumb_path else none

/-- The candidate paths `find_matching_thumbnail` probes, in probe order:
pattern-major, directory-minor. -/
def candidate_paths (video_file : String) (thumbnail_patterns : List String) :
    List String :=
  (patterns (splitext_root (basename video_file))).flatMap fun pattern =>
    thumbnail_patterns.map fun thumb_dir => joinPath thumb_dir pattern

/-- The environment one call of `add_thumbnail_to_video` runs in: the file
system, the metadata `VideoFileClip` yields for the input (duration and frame
size; `none` means opening the source raises), which fade methods the clip
object offers (`hasattr` probes), and whether the fade call, the
`CompositeVideoClip` build, or `write_videofile` raises. -/
structure Env where
  fs : FS := []
  videoMeta : Option (ℚ × Nat × Nat) := none
  hasFadein : Bool := false
  hasFade_in : Bool := false
  hasCrossfadein : Bool := false
  fadeRaises : Bool := false
  compositeRaises : Bool := false
  writeRaises : Bool := false
deriving DecidableEq

/-- Observable outcome of one `add_thumbnail_to_video` call: the returned
boolean, which clip handles were opened and which were closed by the time the
call returns, the overlay's scheduled start/duration, and the fade bookkeeping. -/
structure Result where
  success : Bool := false
  videoOpened : Bool := false
  videoClosed : Bool := false
  thumbOpened : Bool := false
  thumbClosed : Bool := false
  finalOpened : Bool := false
  finalClosed : Bool := false
  thumbStart : Option ℚ := none
  thumbDur : Option ℚ := none
  thumbSize : Option (Nat × Nat) := none
  fadeApplied : Bool := false
  fadeWarning : Bool := false
  errorLogged : Bool := false
deriving DecidableEq

/-- Embeds `add_thumbnail_to_video(input_path, output_path, thumbnail_path, duration,
fade_duration)`. Mirrors the source body: open the source (an open failure is
caught by the outer `except`, which finds no locals to close); return `False`
after closing the source when the thumbnail file is missing; build the overlay
with the given duration, resized to the frame; apply a fade only when
`fade_duration > 0 and fade_duration < duration / 2` and a fade method exists
and does not raise (a missing method or a raising one only logs a warning);
start the overlay at `video_duration` (`with_start`); then composite and
write. The `except` handler closes every handle bound so far. -/
def add_thumbnail_to_video (env : Env)
    (input_path output_path thumbnail_path : String)
    (duration fade_duration : ℚ) : Result :=
  match env.videoMeta with
  | none =>
      { success := false, errorLogged := true }
  | some (video_duration, w, h) =>
      if ¬ (pathExists env.fs thumbnail_path = true) then
        { success := false, videoOpened := true, videoClosed := true,
          errorLogged := true }
      else
        let fadeReached := 0 < fade_duration ∧ fade_duration < duration / 2
        let anyFadeMethod := env.hasFadein || env.hasFade_in || env.hasCrossfadein
        let fadeApplied := decide fadeReached && anyFadeMethod && !env.fadeRaises
        let fadeWarning := decide fadeReached && (!anyFadeMethod || env.fadeRaises)
        if env.compositeRaises then
          { success := false, videoOpened := true, videoClosed := true,
            thumbOpened := true, thumbClosed := true,
            thumbStart := some video_duration, thumbDur := some duration,
            thumbSize := some (w, h),
            fadeApplied := fadeApplied, fadeWarning := fadeWarning,
            errorLogged := true }
        else if env.writeRaises then
          { success := false, videoOpened := true, videoClosed := true,
            thumbOpened := true, thumbClosed := true,
            finalOpened := true, finalClosed := true,
            thumbStart := some video_duration, thumbDur := some duration,
            thumbSize := some (w, h),
            fadeApplied := fadeApplied, fadeWarning := fadeWarning,
            errorLogged := true }
        else
          { success := true, videoOpened := true, videoClosed := true,
            thumbOpened := true, thumbClosed := true,
            finalOpened := true, finalClosed := true,
            thumbStart := some video_duration, thumbDur := some duration,
            thumbSize := some (w, h),
            fadeApplied := fadeApplied, fadeWarning := fadeWarning }

/-- Embeds `process_single_video_threaded(video_info)`: skip a missing input, else run
`add_thumbnail_to_video` with the module constants `THUMBNAIL_DURATION` and
`THUMBNAIL_FADE_DURATION`; returns `(success, input_file)`. -/
def process_single_video_threaded (env : Env)
    (input_file output_file thumbnail_file : String) : Bool × String :=
  if ¬ (pathExists env.fs input_file = true) then (false, input_file)
  else
    ((add_thumbnail_to_video env input_file output_file thumbnail_file
        THUMBNAIL_DURATION THUMBNAIL_FADE_DURATION).success, input_file)

end thumbnail_adder

namespace watermark_adder

/-- Constant `MAX_WORKERS = min(multiprocessing.cpu_count(), 4)`, parametrised by the
machine's CPU count. -/
def MAX_WORKERS (cpu_count : Nat) : Nat := min cpu_count 4

/-- The environment one call of `add_watermark_to_video` runs in: the file
system, the duration `VideoFileClip` yields for the input (`none` means opening
the source raises), and whether the `CompositeVideoClip` build or
`write_videofile` raises. -/
structure Env where
  fs : FS := []
  videoDuration : Option ℚ := none
  compositeRaises : Bool := false
  writeRaises : Bool := false
deriving DecidableEq

/-- Observable outcome of one `add_watermark_to_video` call: the returned
boolean, which clip handles were opened/closed by return time, the positions
and time windows given to the two overlays, which path served as the
last-5-seconds watermark, and the logged warnings/errors. -/
structure Result where
  success : Bool := false
  videoOpened : Bool := false
  videoClosed : Bool := false
  mainOpened : Bool := false
  mainClosed : Bool := false
  lastOpened : Bool := false
  lastClosed : Bool := false
  finalOpened : Bool := false
  finalClosed : Bool := false
  mainDur : Option ℚ := none
  mainPos : Option (ℤ × ℤ) := none
  lastDur : Option ℚ := none
  lastPos : Option (ℤ × ℤ) := none
  lastStart : Option ℚ := none
  usedLastPath : Option String := none
  warnedLastMissing : Bool := false
  errorLogged : Bool := false
deriving DecidableEq

/-- Embeds `add_watermark_to_video(input_path, output_path, watermark_path_main,
watermark_path_last5, x_pos, y_pos, x_pos_last, y_pos_last)`. Mirrors the
source body: open the source (an open failure is caught by the outer `except`,
which finds no locals to close); when the main watermark is missing, log an
error and `return False` — the source clip is NOT closed on this path; when
the last-5-seconds watermark is missing, log a warning and substitute the main
path; build the main overlay over the whole duration; for `duration <= 5`
give the second overlay the full duration with no `set_start`, otherwise
duration 5 starting at `duration - 5`; then composite and write. The `except`
handler closes each handle bound so far, each in its own `try`. -/
def add_watermark_to_video (env : Env)
    (input_path output_path watermark_path_main watermark_path_last5 : String)
    (x_pos y_pos x_pos_last y_pos_last : ℤ) : Result :=
  match env.videoDuration with
  | none =>
      { success := false, errorLogged := true }
  | some duration =>
      if ¬ (pathExists env.fs watermark_path_main = true) then
        { success := false, videoOpened := true, videoClosed := false,
          errorLogged := true }
      else
        let warned := ¬ (pathExists env.fs watermark_path_last5 = true)
        let last5 :=
          if pathExists env.fs watermark_path_last5 then watermark_path_last5
          else watermark_path_main
        let lastDur : ℚ := if duration ≤ 5 then duration else 5
        let lastStart : Option ℚ :=
          if duration ≤ 5 then none else some (duration - 5)
        if env.compositeRaises then
          { success := false, videoOpened := true, videoClosed := true,
            mainOpened := true, mainClosed := true,
            lastOpened := true, lastClosed := true,
            mainDur := some duration, mainPos := some (x_pos, y_pos),
            lastDur := some lastDur, lastPos := some (x_pos_last, y_pos_last),
            lastStart := lastStart, usedLastPath := some last5,
            warnedLastMissing := decide warned, errorLogged := true }
        else if env.writeRaises then
          { success := false, videoOpened := true, videoClosed := true,
            mainOpened := true, mainClosed := true,
            lastOpened := true, lastClosed := true,
            finalOpened := true, finalClosed := true,
            mainDur := some duration, mainPos := some (x_pos, y_pos),
            lastDur := some lastDur, lastPos := some (x_pos_last, y_pos_last),
            lastStart := lastStart, usedLastPath := some last5,
            warnedLastMissing := decide warned, errorLogged := true }
        else
          { success := true, videoOpened := true, videoClosed := true,
            mainOpened := true, mainClosed := true,
            lastOpened := true, lastClosed := true,
            finalOpened := true, finalClosed := true,
            mainDur := some duration, mainPos := some (x_pos, y_pos),
            lastDur := some lastDur, lastPos := some (x_pos_last, y_pos_last),
            lastStart := lastStart, usedLastPath := some last5,
            warnedLastMissing := decide warned }

end watermark_adder

/-- What `future.result()` yields for one submitted task in the
`as_completed` loop of `process_directory` (identical in both scripts):
either the task function returned `(success, input_file)`, or the future
raised and the loop recovers `input_file` from `future_to_video` together
with the exception text. -/
inductive TaskOutcome
  | ok (success : Bool) (input_file : String)
  | exc (input_file : String) (msg : String)
deriving DecidableEq

/-- The loop-local accumulation state of `process_directory`:
`success_count`, `failed_files` (base names), and the error-log records
`(basename, exception text)` written by `thread_safe_log` for raising futures. -/
structure PoolState where
  success_count : Nat := 0
  failed_files : List String := []
  errorLog : List (String × String) := []
deriving DecidableEq

/-- One iteration of the `for future in as_completed(...)` loop body, shared
verbatim by `watermark_adder.process_directory` and
`thumbnail_adder.process_directory`: a `(True, f)` result increments
`success_count`; a `(False, f)` result appends `basename f` to
`failed_files`; a raising future logs the exception and appends `basename f`
to `failed_files`. -/
def pool_step (st : PoolState) (o : TaskOutcome) : PoolState :=
  match o with
  | .ok true _ => { st with success_count := st.success_count + 1 }
  | .ok false f => { st with failed_files := st.failed_files ++ [basename f] }
  | .exc f msg =>
      { st with failed_files := st.failed_files ++ [basename f],
                errorLog := st.errorLog ++ [(basename f, msg)] }

/-- The whole result-collection loop of `process_directory` over the futures
in completion order. -/
def collect_results (outcomes : List TaskOutcome) : PoolState :=
  outcomes.foldl pool_step {}

/-! Helper lemmas. -/

theorem findSome?_guard_map {α β : Type} (f : α → β) (q : β → Bool)
    (xs : List α) :
    (xs.findSome? fun a => if q (f a) then some (f a) else none) =
      (xs.map f).find? q := by
  induction xs with
  | nil => rfl
  | cons a t ih =>
      cases hq : q (f a) <;>
        simp [List.findSome?_cons, List.find?_cons, hq, ih]

theorem find?_flatMap {α β : Type} (g : α → List β) (q : β → Bool)
    (xs : List α) :
    (xs.flatMap g).find? q = xs.findSome? fun a => (g a).find? q := by
  induction xs with
  | nil => rfl
  | cons a t ih =>
      rw [List.flatMap_cons, List.find?_append, List.findSome?_cons, ih]
      cases h : (g a).find? q <;> simp [h, Option.or]

theorem foldl_pool_step_eq (ys : List TaskOutcome) (st : PoolState) :
    ys.foldl pool_step st =
      { success_count := st.success_count + (collect_results ys).success_count,
        failed_files := st.failed_files ++ (collect_results ys).failed_files,
        errorLog := st.errorLog ++ (collect_results ys).errorLog } := by
  induction ys generalizing st with
  | nil =>
      cases st
      simp [collect_results]
  | cons o t ih =>
      rw [List.foldl_cons, ih (pool_step st o),
        show collect_results (o :: t) = t.foldl pool_step (pool_step {} o)
          from rfl,
        ih (pool_step {} o)]
      cases o with
      | ok s f =>
          cases s <;>
            simp [pool_step, PoolState.mk.injEq, List.append_assoc] <;> omega
      | exc f m =>
          simp [pool_step, PoolState.mk.injEq, List.append_assoc]

theorem collect_results_append (xs ys : List TaskOutcome) :
    collect_results (xs ++ ys) =
      { success_count := (collect_results xs).success_count +
          (collect_results ys).success_count,
        failed_files := (collect_results xs).failed_files ++
          (collect_results ys).failed_files,
        errorLog := (collect_results xs).errorLog ++
          (collect_results ys).errorLog } := by
  rw [show collect_results (xs ++ ys) = (xs ++ ys).foldl pool_step {} from rfl,
    List.foldl_append, foldl_pool_step_eq ys (xs.foldl pool_step {})]
  rfl

theorem collect_results_count (ys : List TaskOutcome) :
    (collect_results ys).success_count +
      (collect_results ys).failed_files.length = ys.length := by
  induction ys with
  | nil => rfl
  | cons o t ih =>
      rw [show collect_results (o :: t) = t.foldl pool_step (pool_step {} o)
          from rfl,
        foldl_pool_step_eq t (pool_step {} o)]
      cases o with
      | ok s f => cases s <;> simp [pool_step] <;> omega
      | exc f m => simp [pool_step]; omega

/-! Claim theorems. -/

/-- C1: the resource-release guarantee fails in the code. Evaluating
`add_watermark_to_video` on a source that opens (duration 10) while the main
watermark file is missing: the call takes the early `return False` at the
missing-asset check and returns with the source clip opened but never closed,
so not every exit path releases every opened resource. -/
theorem c1_missing_main_watermark_leaks_source :
    watermark_adder.add_watermark_to_video
        { fs := [], videoDuration := some 10 }
        "in.mp4" "out.mp4" "logo.png" "subscribe.png" 515 330 235 960 =
      { success := false, videoOpened := true, videoClosed := false,
        errorLogged := true } := by
  decide

/-- C2 counterexample: with `dir1` holding a match for the third pattern
(`video.png`) and `dir2` holding a match for the first pattern
(`video_thumb.png`), the claim (directory order takes precedence) predicts the
`dir1` match, but `find_matching_thumbnail` returns the `dir2` match: the
pattern loop is the outer loop. -/
theorem c2_counterexample :
    thumbnail_adder.find_matching_thumbnail
        ["dir1/video.png", "dir2/video_thumb.png"] "video.mp4"
        ["dir1", "dir2"] = some "dir2/video_thumb.png" ∧
    thumbnail_adder.find_matching_thumbnail_dir_major
        ["dir1/video.png", "dir2/video_thumb.png"] "video.mp4"
        ["dir1", "dir2"] = some "dir1/video.png" ∧
    thumbnail_adder.find_matching_thumbnail
        ["dir1/video.png", "dir2/video_thumb.png"] "video.mp4"
        ["dir1", "dir2"] ≠
      thumbnail_adder.find_matching_thumbnail_dir_major
        ["dir1/video.png", "dir2/video_thumb.png"] "video.mp4"
        ["dir1", "dir2"] := by
  refine ⟨by decide, by decide, by decide⟩

/-- C2 (amended): `find_matching_thumbnail` returns the first existing
candidate with PATTERN order taking precedence over directory order — it
probes exactly the candidate list built pattern-major (for each pattern, every
directory in order) and returns its first existing entry; in particular, when
two directories each contain a match for the same pattern, the earlier
directory still wins. -/
theorem c2_find_matching_thumbnail_pattern_major (fs : FS)
    (video_file : String) (thumbnail_patterns : List String) :
    thumbnail_adder.find_matching_thumbnail fs video_file thumbnail_patterns =
      (thumbnail_adder.candidate_paths video_file thumbnail_patterns).find?
        (pathExists fs) := by
  dsimp only [thumbnail_adder.find_matching_thumbnail,
    thumbnail_adder.candidate_paths]
  rw [find?_flatMap]
  exact congrArg
    (fun f => List.findSome? f
      (thumbnail_adder.patterns (splitext_root (basename video_file))))
    (funext fun pattern =>
      findSome?_guard_map (fun thumb_dir => joinPath thumb_dir pattern)
        (pathExists fs) thumbnail_patterns)

/-- C3 counterexample: in the thumbnail operation with source duration 10 and
overlay duration 3, the overlay is scheduled to start at 10 (`with_start
(video_duration)`), not at `10 - 3 = 7` as the claim states. -/
theorem c3_counterexample :
    (thumbnail_adder.add_thumbnail_to_video
        { fs := ["thumb.png"], videoMeta := some (10, 640, 360) }
        "in.mp4" "out.mp4" "thumb.png" 3 (1 / 2)).thumbStart = some 10 ∧
    some (10 : ℚ) ≠ some ((10 : ℚ) - 3) := by
  refine ⟨by decide, by norm_num⟩

/-- C3 (amended): for a source longer than the 5-second window, the watermark
operation schedules the last-5-seconds overlay at `duration - 5` with overlay
duration 5, so it ends exactly with the source; the thumbnail operation
instead schedules its overlay to start at the source's duration itself —
appended after the source's end, not contained in the source's time span. -/
theorem c3_timed_overlay_start (wenv : watermark_adder.Env)
    (tenv : thumbnail_adder.Env)
    (ip op mp lp : String) (x y xl yl : ℤ)
    (tin tout tp : String) (dur fd : ℚ) (d : ℚ) (meta : ℚ × Nat × Nat)
    (hw : wenv.videoDuration = some d) (h5 : 5 < d)
    (hm : pathExists wenv.fs mp = true)
    (ht : tenv.videoMeta = some meta)
    (htp : pathExists tenv.fs tp = true) :
    ((watermark_adder.add_watermark_to_video wenv ip op mp lp
        x y xl yl).lastStart = some (d - 5) ∧
      (watermark_adder.add_watermark_to_video wenv ip op mp lp
        x y xl yl).lastDur = some 5) ∧
    (thumbnail_adder.add_thumbnail_to_video tenv tin tout tp
        dur fd).thumbStart = some meta.1 := by
  obtain ⟨wfs, wvd, wcr, wwr⟩ := wenv
  obtain ⟨tfs, tvm, tf1, tf2, tf3, tfr, tcr, twr⟩ := tenv
  obtain ⟨d', w, h⟩ := meta
  dsimp at hw ht hm htp
  subst hw ht
  constructor
  · cases wcr <;> cases wwr <;>
      simp [watermark_adder.add_watermark_to_video, hm, not_le.mpr h5]
  · cases tcr <;> cases twr <;>
      simp [thumbnail_adder.add_thumbnail_to_video, htp]

/-- C3 witness: the amended statement at source duration 12 for the watermark
(start 7, window 5) and source duration 10, overlay duration 3 for the
thumbnail (start 10). -/
theorem c3_timed_overlay_start_witness :
    ((watermark_adder.add_watermark_to_video
        { fs := ["logo.png", "subscribe.png"], videoDuration := some 12 }
        "in.mp4" "out.mp4" "logo.png" "subscribe.png"
        515 330 235 960).lastStart = some 7 ∧
      (watermark_adder.add_watermark_to_video
        { fs := ["logo.png", "subscribe.png"], videoDuration := some 12 }
        "in.mp4" "out.mp4" "logo.png" "subscribe.png"
        515 330 235 960).lastDur = some 5) ∧
    (thumbnail_adder.add_thumbnail_to_video
        { fs := ["thumb.png"], videoMeta := some (10, 640, 360) }
        "in.mp4" "out.mp4" "thumb.png" 3 (1 / 2)).thumbStart = some 10 := by
  have h := c3_timed_overlay_start
    { fs := ["logo.png", "subscribe.png"], videoDuration := some 12 }
    { fs := ["thumb.png"], videoMeta := some (10, 640, 360) }
    "in.mp4" "out.mp4" "logo.png" "subscribe.png" 515 330 235 960
    "in.mp4" "out.mp4" "thumb.png" 3 (1 / 2) 12 (10, 640, 360)
    rfl (by norm_num) (by decide) rfl (by decide)
  have h12 : (12 : ℚ) - 5 = 7 := by norm_num
  rw [h12] at h
  exact h

/-- C4: a source whose duration is at most the 5-second watermark window takes
the full-length branch, not the trailing-window branch: both overlays are
given the source's full duration and the last-5-seconds overlay gets no start
offset. -/
theorem c4_short_source_full_length (env : watermark_adder.Env)
    (ip op mp lp : String) (x y xl yl : ℤ) (d : ℚ)
    (hd : env.videoDuration = some d) (h5 : d ≤ 5)
    (hm : pathExists env.fs mp = true) :
    (watermark_adder.add_watermark_to_video env ip op mp lp
        x y xl yl).lastStart = none ∧
    (watermark_adder.add_watermark_to_video env ip op mp lp
        x y xl yl).lastDur = some d ∧
    (watermark_adder.add_watermark_to_video env ip op mp lp
        x y xl yl).mainDur = some d := by
  obtain ⟨fs, vd, cr, wr⟩ := env
  dsimp at hd hm
  subst hd
  cases cr <;> cases wr <;>
    simp [watermark_adder.add_watermark_to_video, hm, h5]

/-- C4 witness: a 3-second source with the 5-second window takes the
full-length branch. -/
theorem c4_short_source_full_length_witness :
    (3 : ℚ) ≤ 5 ∧
    (watermark_adder.add_watermark_to_video
        { fs := ["logo.png", "subscribe.png"], videoDuration := some 3 }
        "in.mp4" "out.mp4" "logo.png" "subscribe.png"
        515 330 235 960).lastStart = none ∧
    (watermark_adder.add_watermark_to_video
        { fs := ["logo.png", "subscribe.png"], videoDuration := some 3 }
        "in.mp4" "out.mp4" "logo.png" "subscribe.png"
        515 330 235 960).lastDur = some 3 := by
  have h := c4_short_source_full_length
    { fs := ["logo.png", "subscribe.png"], videoDuration := some 3 }
    "in.mp4" "out.mp4" "logo.png" "subscribe.png" 515 330 235 960 3
    rfl (by norm_num) (by decide)
  exact ⟨by norm_num, h.1, h.2.1⟩

/-- C5: the fade effect is applied to the thumbnail overlay only when
`0 < fade_duration` and `fade_duration < duration / 2`; and whenever no fade
mechanism is available (no fade method exists, or the chosen one raises), the
operation proceeds without fading — a warning is recorded and the call still
succeeds whenever the rest of the pipeline succeeds. -/
theorem c5_fade_gating_and_graceful_degradation (env : thumbnail_adder.Env)
    (ip op tp : String) (dur fd : ℚ) :
    ((thumbnail_adder.add_thumbnail_to_video env ip op tp
        dur fd).fadeApplied = true → 0 < fd ∧ fd < dur / 2) ∧
    (∀ meta, env.videoMeta = some meta → pathExists env.fs tp = true →
      env.compositeRaises = false → env.writeRaises = false →
      (thumbnail_adder.add_thumbnail_to_video env ip op tp
        dur fd).success = true) ∧
    (∀ meta, env.videoMeta = some meta → pathExists env.fs tp = true →
      ((env.hasFadein || env.hasFade_in || env.hasCrossfadein) = false ∨
        env.fadeRaises = true) →
      (thumbnail_adder.add_thumbnail_to_video env ip op tp
        dur fd).fadeApplied = false ∧
      (0 < fd → fd < dur / 2 →
        (thumbnail_adder.add_thumbnail_to_video env ip op tp
          dur fd).fadeWarning = true)) := by
  obtain ⟨fs, vm, f1, f2, f3, fr, cr, wr⟩ := env
  dsimp
  cases vm with
  | none => simp [thumbnail_adder.add_thumbnail_to_video]
  | some meta =>
      obtain ⟨d, w, h⟩ := meta
      by_cases htp : pathExists fs tp = true
      · cases cr <;> cases wr <;>
          · constructor
            · intro happ
              simp [thumbnail_adder.add_thumbnail_to_video, htp] at happ
              exact happ.1.1
            · constructor
              · intro meta hmeta _ hcr hwr
                simp_all [thumbnail_adder.add_thumbnail_to_video, htp]
              · intro meta hmeta _ hunavail
                constructor
                · rcases hunavail with hno | hraise <;>
                    simp_all [thumbnail_adder.add_thumbnail_to_video, htp]
                · intro hpos hlt
                  rcases hunavail with hno | hraise <;>
                    simp_all [thumbnail_adder.add_thumbnail_to_video, htp]
      · simp [thumbnail_adder.add_thumbnail_to_video, htp]

/-- C5 witness: thumbnail overlay of duration 3 with fade duration 1 in an
environment offering no fade method: no fade is applied, a warning is
recorded, and the call still succeeds. -/
theorem c5_fade_gating_and_graceful_degradation_witness :
    (thumbnail_adder.add_thumbnail_to_video
        { fs := ["thumb.png"], videoMeta := some (10, 640, 360) }
        "in.mp4" "out.mp4" "thumb.png" 3 1).success = true ∧
    (thumbnail_adder.add_thumbnail_to_video
        { fs := ["thumb.png"], videoMeta := some (10, 640, 360) }
        "in.mp4" "out.mp4" "thumb.png" 3 1).fadeApplied = false ∧
    (thumbnail_adder.add_thumbnail_to_video
        { fs := ["thumb.png"], videoMeta := some (10, 640, 360) }
        "in.mp4" "out.mp4" "thumb.png" 3 1).fadeWarning = true := by
  have h := c5_fade_gating_and_graceful_degradation
    { fs := ["thumb.png"], videoMeta := some (10, 640, 360) }
    "in.mp4" "out.mp4" "thumb.png" 3 1
  refine ⟨h.2.1 (10, 640, 360) rfl (by decide) rfl rfl, ?_, ?_⟩
  · exact (h.2.2 (10, 640, 360) rfl (by decide) (Or.inl rfl)).1
  · exact (h.2.2 (10, 640, 360) rfl (by decide) (Or.inl rfl)).2
      (by norm_num) (by norm_num)

/-- C9: when the last-5-seconds watermark file is missing but the main
watermark exists, the operation warns, substitutes the main path for the
last-5-seconds overlay, and (when compositing and writing succeed) still
returns success. -/
theorem c9_missing_last5_substitutes_main (env : watermark_adder.Env)
    (ip op mp lp : String) (x y xl yl : ℤ) (d : ℚ)
    (hd : env.videoDuration = some d)
    (hm : pathExists env.fs mp = true)
    (hl : pathExists env.fs lp = false) :
    (watermark_adder.add_watermark_to_video env ip op mp lp
        x y xl yl).warnedLastMissing = true ∧
    (watermark_adder.add_watermark_to_video env ip op mp lp
        x y xl yl).usedLastPath = some mp ∧
    (env.compositeRaises = false → env.writeRaises = false →
      (watermark_adder.add_watermark_to_video env ip op mp lp
        x y xl yl).success = true) := by
  obtain ⟨fs, vd, cr, wr⟩ := env
  dsimp at hd hm hl ⊢
  subst hd
  cases cr <;> cases wr <;>
    simp [watermark_adder.add_watermark_to_video, hm, hl]

/-- C9 witness: main watermark present, last-5-seconds watermark absent, no
compositing failure: warning recorded, main path substituted, task succeeds. -/
theorem c9_missing_last5_substitutes_main_witness :
    (watermark_adder.add_watermark_to_video
        { fs := ["logo.png"], videoDuration := some 10 }
        "in.mp4" "out.mp4" "logo.png" "subscribe.png"
        515 330 235 960).warnedLastMissing = true ∧
    (watermark_adder.add_watermark_to_video
        { fs := ["logo.png"], videoDuration := some 10 }
        "in.mp4" "out.mp4" "logo.png" "subscribe.png"
        515 330 235 960).usedLastPath = some "logo.png" ∧
    (watermark_adder.add_watermark_to_video
        { fs := ["logo.png"], videoDuration := some 10 }
        "in.mp4" "out.mp4" "logo.png" "subscribe.png"
        515 330 235 960).success = true := by
  have h := c9_missing_last5_substitutes_main
    { fs := ["logo.png"], videoDuration := some 10 }
    "in.mp4" "out.mp4" "logo.png" "subscribe.png" 515 330 235 960 10
    rfl (by decide) (by decide)
  exact ⟨h.1, h.2.1, h.2.2 rfl rfl⟩

/-- C6: a future that raises is absorbed at the task boundary of the
`as_completed` loop: wherever it completes among its siblings, it contributes
exactly one Failed record carrying the task's base name and exactly one error
record carrying the base name and the exception text, it changes no sibling's
accounting, and the loop still yields one result per submitted task. -/
theorem c6_task_failure_isolation (pre post : List TaskOutcome)
    (f msg : String) :
    (collect_results (pre ++ TaskOutcome.exc f msg :: post)).failed_files =
      (collect_results pre).failed_files ++ basename f ::
        (collect_results post).failed_files ∧
    (collect_results (pre ++ TaskOutcome.exc f msg :: post)).errorLog =
      (collect_results pre).errorLog ++ (basename f, msg) ::
        (collect_results post).errorLog ∧
    (collect_results (pre ++ TaskOutcome.exc f msg :: post)).success_count =
      (collect_results pre).success_count +
        (collect_results post).success_count ∧
    (collect_results (pre ++ TaskOutcome.exc f msg :: post)).success_count +
      (collect_results
        (pre ++ TaskOutcome.exc f msg :: post)).failed_files.length =
      pre.length + 1 + post.length := by
  have hsplit : pre ++ TaskOutcome.exc f msg :: post =
      pre ++ ([TaskOutcome.exc f msg] ++ post) := by simp
  have hmid := collect_results_append [TaskOutcome.exc f msg] post
  have hall := collect_results_append pre ([TaskOutcome.exc f msg] ++ post)
  have hone : collect_results [TaskOutcome.exc f msg] =
      { success_count := 0, failed_files := [basename f],
        errorLog := [(basename f, msg)] } := rfl
  have hcpre := collect_results_count pre
  have hcpost := collect_results_count post
  rw [hsplit, hall, hmid, hone]
  refine ⟨by simp, by simp, by simp, ?_⟩
  simp
  omega

/-- C7: however task completions interleave (any permutation of the submitted
tasks' outcomes), the collection loop records one result per submitted task
and the counters satisfy
`success_count + failed_files.length = number of tasks submitted`. -/
theorem c7_result_count_invariant (submitted completed : List TaskOutcome)
    (h : completed.Perm submitted) :
    (collect_results completed).success_count +
      (collect_results completed).failed_files.length = submitted.length := by
  rw [collect_results_count completed, h.length_eq]

/-- C7 witness: two submitted tasks completing in swapped order — one success
and one raising future — give `success_count + failed = 2`. -/
theorem c7_result_count_invariant_witness :
    ([TaskOutcome.exc "a.mp4" "boom", TaskOutcome.ok true "b.mp4"].Perm
      [TaskOutcome.ok true "b.mp4", TaskOutcome.exc "a.mp4" "boom"]) ∧
    (collect_results
        [TaskOutcome.exc "a.mp4" "boom",
         TaskOutcome.ok true "b.mp4"]).success_count +
      (collect_results
        [TaskOutcome.exc "a.mp4" "boom",
         TaskOutcome.ok true "b.mp4"]).failed_files.length = 2 := by
  refine ⟨List.Perm.swap _ _ _, ?_⟩
  exact c7_result_count_invariant
    [TaskOutcome.ok true "b.mp4", TaskOutcome.exc "a.mp4" "boom"]
    [TaskOutcome.exc "a.mp4" "boom", TaskOutcome.ok true "b.mp4"]
    (List.Perm.swap _ _ _)

/-- C8: in both scripts `MAX_WORKERS` is `min(cpu_count, 4)`: it equals the
machine's parallelism when that is at most 4 and is capped at exactly 4
otherwise. -/
theorem c8_max_workers_cap (cpu_count : Nat) :
    thumbnail_adder.MAX_WORKERS cpu_count = min cpu_count 4 ∧
    watermark_adder.MAX_WORKERS cpu_count = min cpu_count 4 ∧
    (cpu_count ≤ 4 →
      thumbnail_adder.MAX_WORKERS cpu_count = cpu_count ∧
      watermark_adder.MAX_WORKERS cpu_count = cpu_count) ∧
    (4 < cpu_count →
      thumbnail_adder.MAX_WORKERS cpu_count = 4 ∧
      watermark_adder.MAX_WORKERS cpu_count = 4) := by
  refine ⟨rfl, rfl, fun h => ?_, fun h => ?_⟩ <;>
    constructor <;>
      simp [thumbnail_adder.MAX_WORKERS, watermark_adder.MAX_WORKERS] <;>
        omega

/-- C8 witness: 2 cores give 2 workers; 8 cores are capped at 4. -/
theorem c8_max_workers_cap_witness :
    ((2 : Nat) ≤ 4 ∧ thumbnail_adder.MAX_WORKERS 2 = 2 ∧
      watermark_adder.MAX_WORKERS 2 = 2) ∧
    (4 < (8 : Nat) ∧ thumbnail_adder.MAX_WORKERS 8 = 4 ∧
      watermark_adder.MAX_WORKERS 8 = 4) := by
  refine ⟨⟨by decide, ?_⟩, ⟨by decide, ?_⟩⟩
  · exact (c8_max_workers_cap 2).2.2.1 (by decide)
  · exact (c8_max_workers_cap 8).2.2.2 (by decide)

/-- C10: under the module defaults `THUMBNAIL_DURATION = 0.1` and
`THUMBNAIL_FADE_DURATION = 0.1`, the fade-branch condition
`fade_duration > 0 and fade_duration < duration / 2` is false (0.1 is not
below 0.05), so no call of `add_thumbnail_to_video` made with these constants
— as both the batch and the single-video entry points make it — ever applies
a fade, in any environment. -/
theorem c10_default_config_never_fades :
    decide (0 < thumbnail_adder.THUMBNAIL_FADE_DURATION ∧
        thumbnail_adder.THUMBNAIL_FADE_DURATION <
          thumbnail_adder.THUMBNAIL_DURATION / 2) = false ∧
    ∀ (env : thumbnail_adder.Env) (ip op tp : String),
      (thumbnail_adder.add_thumbnail_to_video env ip op tp
          thumbnail_adder.THUMBNAIL_DURATION
          thumbnail_adder.THUMBNAIL_FADE_DURATION).fadeApplied = false := by
  have hcond : ¬ (0 < thumbnail_adder.THUMBNAIL_FADE_DURATION ∧
      thumbnail_adder.THUMBNAIL_FADE_DURATION <
        thumbnail_adder.THUMBNAIL_DURATION / 2) := by
    rw [thumbnail_adder.THUMBNAIL_FADE_DURATION,
      thumbnail_adder.THUMBNAIL_DURATION]
    norm_num
  refine ⟨by simp [hcond], fun env ip op tp => ?_⟩
  obtain ⟨fs, vm, f1, f2, f3, fr, cr, wr⟩ := env
  cases vm with
  | none => rfl
  | some meta =>
      obtain ⟨d, w, h⟩ := meta
      by_cases htp : pathExists fs tp = true
      · cases cr <;> cases wr <;>
          simp [thumbnail_adder.add_thumbnail_to_video, htp, hcond]
      · simp [thumbnail_adder.add_thumbnail_to_video, htp]

end YouTube
